import Mathlib

/-!
Verification of the x402-service core against its specification.

The Go sources are shallowly embedded: pure computations become Lean
functions, wall-clock time (`time.Now()`) becomes an explicit `Int`
parameter (Unix seconds), pointer-typed heap state becomes an explicit
address-indexed store, and external collaborators (JWT decoding, HTTP
upstreams) become explicit inputs carrying their results.
-/

/-! ## Payment gate (validatePayment and the /api/gas handler) -/

/-- The `payment` object inside the x402 JWT (`PaymentToken.Payment` in Go). -/
structure PaymentInfo where
  amount : String
  asset : String
  receiver : String
  network : String
  deriving Repr, DecidableEq

/-- `jwt.RegisteredClaims`: standard JWT claims embedded in `PaymentToken`.
Dates are Unix seconds; absent claims are `none`. -/
structure RegisteredClaims where
  issuer : Option String := none
  subject : Option String := none
  audience : List String := []
  expiresAt : Option Int := none
  notBefore : Option Int := none
  issuedAt : Option Int := none
  id : Option String := none
  deriving Repr, DecidableEq

/-- `PaymentToken`: the decoded JWT structure for x402 payments. -/
structure PaymentToken where
  payment : PaymentInfo
  registeredClaims : RegisteredClaims
  deriving Repr, DecidableEq

/-- `PaymentRequirement`: what the service sends in 402 responses. -/
structure PaymentRequirement where
  scheme : String
  network : String
  maxAmount : String
  minAmount : String
  asset : String
  receiver : String
  description : String
  deriving Repr, DecidableEq

/-- `ServiceConfig`: the x402 configuration. -/
structure ServiceConfig where
  price : String
  asset : String
  network : String
  receiver : String
  description : String
  deriving Repr, DecidableEq

/-- ASCII lowercasing of one character, as done by `Char.toLower`;
`strings.ToLower` restricted to the ASCII range used by addresses. -/
def charToLower (c : Char) : Char :=
  if 'A' ≤ c ∧ c ≤ 'Z' then Char.ofNat (c.toNat + 32) else c

/-- `strings.ToLower` on a whole string (ASCII case mapping). -/
def strToLower (s : String) : String :=
  String.mk (s.data.map charToLower)

/-- `validatePayment` (src/unnamed/part_001 lines 650-684).  The JWT parse
step `jwt.Parser.ParseUnverified` is an external library call; its outcome
is the explicit input `decoded` (`none` on parse failure).  The function
compares amount (exact string), asset (case-sensitive) and receiver
(case-insensitive via `strings.ToLower`); the token expiry is never
consulted (the `if token.Valid` branch is empty). -/
def validatePayment (decoded : Option PaymentToken) (expectedAmount expectedAsset expectedReceiver : String) : Bool :=
  match decoded with
  | none => false
  | some claims =>
    if claims.payment.amount ≠ expectedAmount then false
    else if claims.payment.asset ≠ expectedAsset then false
    else if strToLower claims.payment.receiver ≠ strToLower expectedReceiver then false
    else true

/-- Terminal decision of the payment gate on a paid route. -/
inductive GateDecision where
  | Challenge
  | Rejected
  | Granted
  deriving Repr, DecidableEq

/-- The gate control flow of each paid handler (e.g. /api/gas,
src/unnamed/part_001 lines 292-331): `presented = none` models an absent
`X-Payment-Response` header; `presented = some decoded` carries the JWT
decode outcome for a presented header. -/
def authorize (expectedAmount expectedAsset expectedReceiver : String)
    (presented : Option (Option PaymentToken)) : GateDecision :=
  match presented with
  | none => .Challenge
  | some decoded =>
    if validatePayment decoded expectedAmount expectedAsset expectedReceiver then
      .Granted
    else
      .Rejected

/-- The `PaymentRequirement` embedded in the /api/gas challenge response
(src/unnamed/part_001 lines 305-313). -/
def gasRequirement (config : ServiceConfig) : PaymentRequirement :=
  { scheme := "x402"
    network := config.network
    maxAmount := "0.001"
    minAmount := "0.001"
    asset := config.asset
    receiver := config.receiver
    description := "Get current Ethereum gas prices" }

/-- JSON body of a payment-related terminal response of /api/gas.
The challenge body carries a `payment` key with the requirement; the
rejected body carries only `error` and `version`. -/
structure GasErrorBody where
  error : String
  version : String
  payment : Option PaymentRequirement
  deriving Repr, DecidableEq

/-- The /api/gas handler's payment-terminal behaviour
(src/unnamed/part_001 lines 292-331): returns the error body sent for the
two payment-terminal outcomes, `none` when payment is granted and the
handler proceeds to serve data.  The hard-coded price of the route is
"0.001" USDC. -/
def gasTerminalResponse (config : ServiceConfig) (presented : Option (Option PaymentToken)) :
    Option GasErrorBody :=
  match presented with
  | none =>
    some { error := "Payment required"
           version := "x402/1.0"
           payment := some (gasRequirement config) }
  | some decoded =>
    if validatePayment decoded "0.001" config.asset config.receiver then
      none
    else
      some { error := "Invalid or insufficient payment"
             version := "x402/1.0"
             payment := none }

/-- The default configuration built in `main` (src/unnamed/part_001
lines 218-229) with the default receiver address. -/
def defaultServiceConfig : ServiceConfig :=
  { price := "0.001"
    asset := "USDC"
    network := "base"
    receiver := "0x120e011fB8a12bfcB61e5c1d751C26A5D33Aae91"
    description := "Arithmos API - Real-time Ethereum data" }

/-- C1: no token yields Challenge; a presented token yields Rejected on
decode failure or on any of the three mismatches; Granted exactly when
amount matches exactly, asset matches case-sensitively and receiver
matches case-insensitively; the expiry fields never affect the result. -/
theorem c1_gate_decision (amt asset recv : String) (presented : Option (Option PaymentToken)) :
    (presented = none → authorize amt asset recv presented = .Challenge) ∧
    (∀ tok : PaymentToken, presented = some (some tok) →
      (authorize amt asset recv presented = .Granted ↔
        (tok.payment.amount = amt ∧ tok.payment.asset = asset ∧
         strToLower tok.payment.receiver = strToLower recv)) ∧
      (authorize amt asset recv presented = .Rejected ↔
        ¬ (tok.payment.amount = amt ∧ tok.payment.asset = asset ∧
           strToLower tok.payment.receiver = strToLower recv))) ∧
    (presented = some none → authorize amt asset recv presented = .Rejected) ∧
    (∀ tok : PaymentToken, ∀ rc rc' : RegisteredClaims,
      authorize amt asset recv (some (some { tok with registeredClaims := rc })) =
      authorize amt asset recv (some (some { tok with registeredClaims := rc' }))) := by
  refine ⟨fun h => by subst h; rfl, fun tok h => ?_, fun h => by subst h; rfl, fun tok rc rc' => rfl⟩
  subst h
  constructor
  · constructor
    · intro h
      by_cases h1 : tok.payment.amount = amt
      · by_cases h2 : tok.payment.asset = asset
        · by_cases h3 : strToLower tok.payment.receiver = strToLower recv
          · exact ⟨h1, h2, h3⟩
          · simp [authorize, validatePayment, h1, h2, h3] at h
        · simp [authorize, validatePayment, h1, h2] at h
      · simp [authorize, validatePayment, h1] at h
    · rintro ⟨h1, h2, h3⟩
      simp [authorize, validatePayment, h1, h2, h3]
  · constructor
    · intro h hc
      rcases hc with ⟨h1, h2, h3⟩
      simp [authorize, validatePayment, h1, h2, h3] at h
    · intro hc
      by_cases h1 : tok.payment.amount = amt
      · by_cases h2 : tok.payment.asset = asset
        · by_cases h3 : strToLower tok.payment.receiver = strToLower recv
          · exact absurd ⟨h1, h2, h3⟩ hc
          · simp [authorize, validatePayment, h1, h2, h3]
        · simp [authorize, validatePayment, h1, h2]
      · simp [authorize, validatePayment, h1]

/-- A concrete decoded token matching the /api/gas requirement with a
mixed-case receiver and an already-expired claim. -/
def sampleGasToken : PaymentToken :=
  { payment :=
      { amount := "0.001"
        asset := "USDC"
        receiver := "0x120E011FB8A12BFCB61E5C1D751C26A5D33AAE91"
        network := "base" }
    registeredClaims := { expiresAt := some 0, issuedAt := some 0 } }

/-- Witness for `c1_gate_decision` at a concrete requirement and token. -/
theorem c1_gate_decision_witness :
    authorize "0.001" "USDC" "0x120e011fB8a12bfcB61e5c1d751C26A5D33Aae91"
      (some (some sampleGasToken)) = .Granted :=
  ((c1_gate_decision "0.001" "USDC" "0x120e011fB8a12bfcB61e5c1d751C26A5D33Aae91"
      (some (some sampleGasToken))).2.1 sampleGasToken rfl).1.2 (by decide)

/-- C2 counterexample: with the default configuration and a presented
token that fails to decode, the /api/gas rejected response body carries
no `PaymentRequirement` (its `payment` field is `none`), so not every
payment-related terminal response includes the requirement. -/
theorem c2_rejected_body_lacks_requirement :
    gasTerminalResponse defaultServiceConfig (some none) =
      some { error := "Invalid or insufficient payment"
             version := "x402/1.0"
             payment := none } := by
  rfl

/-- C2 amended: the challenge response (no token presented) embeds the
`PaymentRequirement`; the rejected response (presented token failing
validation) is a JSON body with only an error string and a protocol
version, and embeds no `PaymentRequirement`. -/
theorem c2_terminal_bodies (config : ServiceConfig) (decoded : Option PaymentToken) :
    gasTerminalResponse config none =
      some { error := "Payment required"
             version := "x402/1.0"
             payment := some (gasRequirement config) } ∧
    (validatePayment decoded "0.001" config.asset config.receiver = false →
      gasTerminalResponse config (some decoded) =
        some { error := "Invalid or insufficient payment"
               version := "x402/1.0"
               payment := none }) := by
  refine ⟨rfl, fun h => ?_⟩
  simp [gasTerminalResponse, h]

/-- Witness for `c2_terminal_bodies` at the default configuration and an
undecodable token. -/
theorem c2_terminal_bodies_witness :
    gasTerminalResponse defaultServiceConfig (some none) =
      some { error := "Invalid or insufficient payment"
             version := "x402/1.0"
             payment := none } :=
  (c2_terminal_bodies defaultServiceConfig none).2 rfl

/-- C10: `validatePayment` never reads the claim's network field: two
decoded claims differing only in network validate identically, and a
token declaring any network whatsoever is accepted whenever amount,
asset and receiver match the requirement. -/
theorem c10_network_ignored (amt asset recv : String) :
    (∀ tok : PaymentToken, ∀ n n' : String,
      validatePayment (some { tok with payment := { tok.payment with network := n } }) amt asset recv =
      validatePayment (some { tok with payment := { tok.payment with network := n' } }) amt asset recv) ∧
    (∀ tok : PaymentToken,
      tok.payment.amount = amt → tok.payment.asset = asset →
      strToLower tok.payment.receiver = strToLower recv →
      validatePayment (some tok) amt asset recv = true) := by
  refine ⟨fun tok n n' => rfl, fun tok h1 h2 h3 => ?_⟩
  simp [validatePayment, h1, h2, h3]

/-- Witness for `c10_network_ignored`: a token declaring network
"ethereum" is accepted against the "base"-network gas route requirement. -/
theorem c10_network_ignored_witness :
    validatePayment
      (some { sampleGasToken with payment := { sampleGasToken.payment with network := "ethereum" } })
      "0.001" "USDC" "0x120e011fB8a12bfcB61e5c1d751C26A5D33Aae91" = true :=
  (c10_network_ignored "0.001" "USDC" "0x120e011fB8a12bfcB61e5c1d751C26A5D33Aae91").2
    { sampleGasToken with payment := { sampleGasToken.payment with network := "ethereum" } }
    rfl rfl (by decide)

/-! ## Expiring cache (Cache in src/unnamed/part_000 lines 100-162) -/

/-- Association-list lookup with string keys (models Go map indexing). -/
def alookup {β : Type} (k : String) : List (String × β) → Option β
  | [] => none
  | (k', v) :: rest => if k' = k then some v else alookup k rest

/-- Association-list insert-or-replace (models Go map assignment). -/
def aset {β : Type} (k : String) (v : β) : List (String × β) → List (String × β)
  | [] => [(k, v)]
  | (k', v') :: rest => if k' = k then (k', v) :: rest else (k', v') :: aset k v rest

/-- `cacheItem`: stored value plus absolute expiry instant (Unix seconds). -/
structure CacheItem (α : Type) where
  value : α
  expiresAt : Int
  deriving Repr, DecidableEq

/-- `Cache`: the in-memory TTL cache; `items` models the Go map, `ttl`
the uniform time-to-live in seconds. -/
structure Cache (α : Type) where
  items : List (String × CacheItem α)
  ttl : Int
  deriving Repr, DecidableEq

/-- `NewCache`: empty map with the given ttl. -/
def Cache.new (α : Type) (ttl : Int) : Cache α := { items := [], ttl := ttl }

/-- `Cache.Get` at instant `now`: not-found when the key is absent or
`time.Now().After(item.expiresAt)`, i.e. `now > expiresAt`. -/
def Cache.get {α : Type} (c : Cache α) (now : Int) (key : String) : Option α :=
  match alookup key c.items with
  | none => none
  | some item => if now > item.expiresAt then none else some item.value

/-- `Cache.Set` at instant `now`: stores the value with expiry
`now + ttl`. -/
def Cache.set {α : Type} (c : Cache α) (now : Int) (key : String) (v : α) : Cache α :=
  { c with items := aset key ⟨v, now + c.ttl⟩ c.items }

/-- One pass of the background `cleanup` sweep at instant `now`: deletes
every physically expired entry. -/
def Cache.sweep {α : Type} (c : Cache α) (now : Int) : Cache α :=
  { c with items := c.items.filter (fun kv => !(now > kv.2.expiresAt)) }

theorem alookup_aset_self {β : Type} (k : String) (v : β) (l : List (String × β)) :
    alookup k (aset k v l) = some v := by
  induction l with
  | nil => simp [alookup, aset]
  | cons kv rest ih =>
    by_cases h : kv.1 = k
    · simp [aset, alookup, h]
    · simp [aset, alookup, h, ih]

/-- C7: after a write at `tW`, a read at any instant strictly later than
`tW + ttl` is not-found even though the entry is still physically
present (no sweep has run); and in general a read of an entry whose
expiry instant has passed behaves identically to a read of an absent
key: both return not-found. -/
theorem c7_ttl_expiry {α : Type} :
    (∀ (c : Cache α) (tW tR : Int) (key : String) (v : α), tW + c.ttl < tR →
      (c.set tW key v).get tR key = none ∧
      (alookup key (c.set tW key v).items).isSome = true) ∧
    (∀ (c : Cache α) (now : Int) (key : String) (item : CacheItem α),
      alookup key c.items = some item → item.expiresAt < now →
      c.get now key = none) ∧
    (∀ (c : Cache α) (now : Int) (key : String),
      alookup key c.items = none → c.get now key = none) := by
  refine ⟨fun c tW tR key v h => ?_, fun c now key item hl he => ?_, fun c now key hl => ?_⟩
  · have hs : alookup key (c.set tW key v).items = some ⟨v, tW + c.ttl⟩ := by
      simpa [Cache.set] using alookup_aset_self key (⟨v, tW + c.ttl⟩ : CacheItem α) c.items
    refine ⟨?_, by simp [hs]⟩
    simp only [Cache.get, hs]
    simp [h]
  · simp only [Cache.get, hl]
    simp [he]
  · simp [Cache.get, hl]

/-- Witness for `c7_ttl_expiry`: a fresh 24-hour cache written at time 0
and read at time 86401 misses, with the entry still stored. -/
theorem c7_ttl_expiry_witness :
    ((Cache.new Nat 86400).set 0 "contract:base:0xabc" 7).get 86401 "contract:base:0xabc" = none ∧
    (alookup "contract:base:0xabc" ((Cache.new Nat 86400).set 0 "contract:base:0xabc" 7).items).isSome = true :=
  (c7_ttl_expiry.1 (Cache.new Nat 86400) 0 86401 "contract:base:0xabc" 7 (by decide))

/-! ## PromptGuard (src/unnamed/part_000 lines 625-753)

Each Go `regexp` is embedded as an executable matcher on the prompt.
All phrase-style patterns are alternations of literal words joined by
`\s+` under the `(?i)` flag; they are matched by lowercasing the input
and searching for the word sequence separated by whitespace runs.  The
three character-class patterns (invisible Unicode, `[!?]\x7b4,\x7d`, word
repetition) get dedicated scanners. -/

/-- Go's `\s` character class: `[\t\n\f\r ]`. -/
def isGoSpace (c : Char) : Bool :=
  c = '\t' || c = '\n' || c = Char.ofNat 12 || c = '\r' || c = ' '

/-- Go's `\w` character class: `[0-9A-Za-z_]`. -/
def isWordChar (c : Char) : Bool :=
  ('a' ≤ c && c ≤ 'z') || ('A' ≤ c && c ≤ 'Z') || ('0' ≤ c && c ≤ '9') || c = '_'

/-- Matches the literal word `w` at the head of `s`, returning the rest. -/
def stripWord : List Char → List Char → Option (List Char)
  | [], s => some s
  | _ :: _, [] => none
  | a :: as, b :: bs => if a = b then stripWord as bs else none

/-- Matches the phrase `w1\s+w2\s+...\s+wn` anchored at the head of `s`.
Since no word starts with a space, the greedy whitespace run after each
word is the unique way `\s+` can match. -/
def phraseMatchAt : List (List Char) → List Char → Bool
  | [], _ => true
  | w :: ws, s =>
    match stripWord w s with
    | none => false
    | some r =>
      match ws with
      | [] => true
      | _ :: _ =>
        let r2 := r.dropWhile isGoSpace
        decide (r2.length < r.length) && phraseMatchAt ws r2

/-- Unanchored search for the phrase anywhere in `s` (regexp `MatchString`). -/
def phraseSearch (ws : List (List Char)) : List Char → Bool
  | [] => phraseMatchAt ws []
  | c :: rest => phraseMatchAt ws (c :: rest) || phraseSearch ws rest

/-- `(?i)(alt1|alt2|...)` over whitespace-joined word alternatives:
lowercase the input (the alternatives are stored lowercased) and search
each alternative. -/
def matchPhrases (alts : List (List (List Char))) (s : String) : Bool :=
  alts.any (fun ws => phraseSearch ws (s.data.map charToLower))

/-- The invisible-Unicode class `[\x{200B}-\x{200D}\x{2060}\x{FEFF}]`. -/
def hasInvisibleUnicode (s : String) : Bool :=
  s.data.any (fun c =>
    (0x200B ≤ c.toNat && c.toNat ≤ 0x200D) || c.toNat = 0x2060 || c.toNat = 0xFEFF)

def isBangOrQuestion (c : Char) : Bool := c = '!' || c = '?'

/-- The class repetition `[!?]` four or more times in a row. -/
def hasFourConsecutivePunct : List Char → Bool
  | c1 :: c2 :: c3 :: c4 :: rest =>
    (isBangOrQuestion c1 && isBangOrQuestion c2 && isBangOrQuestion c3 &&
      isBangOrQuestion c4) || hasFourConsecutivePunct (c2 :: c3 :: c4 :: rest)
  | _ => false

/-- Matches excessive punctuation anywhere in the prompt. -/
def matchExcessivePunct (s : String) : Bool := hasFourConsecutivePunct s.data

/-- For the word-repetition regexp: at the start of a word-character run
bounded on the left, checks the remainder realizes two further
whitespace-separated word groups. -/
def repTailAt (s : List Char) : Bool :=
  let r1 := s.dropWhile isWordChar
  match r1 with
  | [] => false
  | c :: _ =>
    isGoSpace c &&
    (let r2 := r1.dropWhile isGoSpace
     match r2 with
     | [] => false
     | d :: _ =>
       isWordChar d &&
       (let r3 := r2.dropWhile isWordChar
        match r3 with
        | [] => false
        | e :: _ =>
          isGoSpace e &&
          (let r4 := r3.dropWhile isGoSpace
           match r4 with
           | [] => false
           | f :: _ => isWordChar f)))

/-- Scanner for `(\b\w+\b)(\s+\w+)\x7b2,\x7d`: the flag tracks whether the
previous character was a word character (for the left boundary `\b`). -/
def searchRepetition : Bool → List Char → Bool
  | _, [] => false
  | prevWord, c :: rest =>
    (!prevWord && isWordChar c && repTailAt (c :: rest)) ||
      searchRepetition (isWordChar c) rest

/-- The word-repetition pattern on a prompt. -/
def matchRepetition (s : String) : Bool := searchRepetition false s.data

/-- `InjectionPattern`: name, compiled matcher, points and description. -/
structure InjectionPattern where
  name : String
  regex : String → Bool
  riskPoints : Int
  description : String

def lcurly : Char := Char.ofNat 123

def apostropheChar : Char := Char.ofNat 39

/-- Word alternatives of the `ignore_instructions` regexp
`(?i)(ignore\s+all\s+previous\s+instructions|ignore\s+the\s+above|disregard\s+previous|forget\s+previous)`. -/
def ignoreInstructionsAlts : List (List (List Char)) :=
  [["ignore".data, "all".data, "previous".data, "instructions".data],
   ["ignore".data, "the".data, "above".data],
   ["disregard".data, "previous".data],
   ["forget".data, "previous".data]]

/-- `jailbreak_attempt`: `(?i)(DAN|do\s+anything\s+now|jailbreak|developer\s+mode|sudo\s+mode|admin\s+terminal)`. -/
def jailbreakAlts : List (List (List Char)) :=
  [["dan".data], ["do".data, "anything".data, "now".data], ["jailbreak".data],
   ["developer".data, "mode".data], ["sudo".data, "mode".data],
   ["admin".data, "terminal".data]]

/-- `function_redefinition`: `(?i)(redefine|change\s+the\s+meaning|now\s+means|is\s+now|from\s+now\s+on)`. -/
def functionRedefinitionAlts : List (List (List Char)) :=
  [["redefine".data], ["change".data, "the".data, "meaning".data],
   ["now".data, "means".data], ["is".data, "now".data],
   ["from".data, "now".data, "on".data]]

/-- `authority_claim`: `(?i)(system\s+admin|developer|creator|owner|override|i\s+am\s+the)`. -/
def authorityClaimAlts : List (List (List Char)) :=
  [["system".data, "admin".data], ["developer".data], ["creator".data],
   ["owner".data], ["override".data], ["i".data, "am".data, "the".data]]

/-- `obfuscation`: `(?i)(ROT13|base64\s+decode|encode\s+this|\$\x7b|\x7b\x7b|\[\[)`. -/
def obfuscationAlts : List (List (List Char)) :=
  [["rot13".data], ["base64".data, "decode".data], ["encode".data, "this".data],
   [['$', lcurly]], [[lcurly, lcurly]], ["[[".data]]

/-- `token_manipulation`: `(?i)(transfer\s+all|send\s+all|approve\s+unlimited|drain\s+wallet)`. -/
def tokenManipulationAlts : List (List (List Char)) :=
  [["transfer".data, "all".data], ["send".data, "all".data],
   ["approve".data, "unlimited".data], ["drain".data, "wallet".data]]

/-- `social_engineering`: `(?i)(trust\s+me|i'm\s+from\s+support|internal\s+audit|authorized\s+personnel|emergency\s+access)`. -/
def socialEngineeringAlts : List (List (List Char)) :=
  [["trust".data, "me".data],
   [['i', apostropheChar, 'm'], "from".data, "support".data],
   ["internal".data, "audit".data], ["authorized".data, "personnel".data],
   ["emergency".data, "access".data]]

/-- `NewPromptGuard` (src/unnamed/part_000 lines 633-702): the static
pattern table with its point values. -/
def promptGuardPatterns : List InjectionPattern :=
  [{ name := "ignore_instructions"
     regex := matchPhrases ignoreInstructionsAlts
     riskPoints := 100
     description := "Attempt to override previous instructions" },
   { name := "jailbreak_attempt"
     regex := matchPhrases jailbreakAlts
     riskPoints := 100
     description := "Known jailbreak pattern" },
   { name := "function_redefinition"
     regex := matchPhrases functionRedefinitionAlts
     riskPoints := 80
     description := "Attempt to redefine functions or terms" },
   { name := "authority_claim"
     regex := matchPhrases authorityClaimAlts
     riskPoints := 70
     description := "False authority claim" },
   { name := "obfuscation"
     regex := matchPhrases obfuscationAlts
     riskPoints := 60
     description := "Possible obfuscation attempt" },
   { name := "token_manipulation"
     regex := matchPhrases tokenManipulationAlts
     riskPoints := 60
     description := "Token/wallet manipulation keywords" },
   { name := "social_engineering"
     regex := matchPhrases socialEngineeringAlts
     riskPoints := 50
     description := "Social engineering attempt" },
   { name := "unicode_obfuscation"
     regex := hasInvisibleUnicode
     riskPoints := 70
     description := "Invisible Unicode characters detected" },
   { name := "excessive_punctuation"
     regex := matchExcessivePunct
     riskPoints := 20
     description := "Excessive punctuation (possible aggression)" },
   { name := "repetition_pattern"
     regex := matchRepetition
     riskPoints := 15
     description := "Word repetition pattern" }]

/-- `PromptTestResult` (src/unnamed/part_000 lines 81-90). -/
structure PromptTestResult where
  prompt : String
  riskScore : Int
  safe : Bool
  threatLevel : String
  patterns : List String
  detections : List String
  warnings : List String
  testedAt : Int
  deriving Repr, DecidableEq

/-- One iteration of the pattern loop in `PromptGuard.Test`
(src/unnamed/part_000 lines 716-731). -/
def testStep (prompt : String) (r : PromptTestResult) (p : InjectionPattern) :
    PromptTestResult :=
  if p.regex prompt then
    let detection :=
      p.name ++ ": " ++ p.description ++ " (+" ++ toString p.riskPoints ++ " points)"
    let r' := { r with riskScore := r.riskScore + p.riskPoints
                       patterns := r.patterns ++ [p.name] }
    if p.riskPoints ≥ 70 then
      { r' with detections := r'.detections ++ [detection], safe := false }
    else
      { r' with warnings := r'.warnings ++ [detection] }
  else r

/-- `PromptGuard.Test` (src/unnamed/part_000 lines 705-753): result
initialization (with `TestedAt` from the wall clock, passed here as
`now`), the pattern loop, the score cap and the threat-level switch. -/
def promptGuardTest (patterns : List InjectionPattern) (now : Int) (prompt : String) :
    PromptTestResult :=
  let r0 : PromptTestResult :=
    { prompt := prompt, riskScore := 0, safe := true, threatLevel := ""
      patterns := [], detections := [], warnings := [], testedAt := now }
  let r1 := patterns.foldl (testStep prompt) r0
  let r2 := { r1 with riskScore := if r1.riskScore > 100 then 100 else r1.riskScore }
  { r2 with threatLevel :=
      if r2.riskScore ≥ 80 then "CRITICAL"
      else if r2.riskScore ≥ 60 then "HIGH"
      else if r2.riskScore ≥ 40 then "MEDIUM"
      else if r2.riskScore ≥ 20 then "LOW"
      else "NONE" }

/-! ### Fold lemmas for the pattern loop -/

theorem testStep_testedAt (prompt : String) (r : PromptTestResult) (p : InjectionPattern) (a : Int) :
    testStep prompt { r with testedAt := a } p = { testStep prompt r p with testedAt := a } := by
  simp only [testStep]
  by_cases h : p.regex prompt
  · by_cases h70 : p.riskPoints ≥ 70 <;> simp [h, h70]
  · simp [h]

theorem foldl_testStep_testedAt (prompt : String) (ps : List InjectionPattern)
    (r : PromptTestResult) (a : Int) :
    ps.foldl (testStep prompt) { r with testedAt := a } =
      { ps.foldl (testStep prompt) r with testedAt := a } := by
  induction ps generalizing r with
  | nil => rfl
  | cons p ps ih =>
    simp only [List.foldl_cons, testStep_testedAt, ih]

theorem foldl_testStep_riskScore (prompt : String) (ps : List InjectionPattern)
    (r : PromptTestResult) :
    (ps.foldl (testStep prompt) r).riskScore =
      r.riskScore + ((ps.filter (fun p => p.regex prompt)).map (fun p => p.riskPoints)).sum := by
  induction ps generalizing r with
  | nil => simp
  | cons p ps ih =>
    simp only [List.foldl_cons, ih, List.filter_cons]
    by_cases h : p.regex prompt
    · by_cases h70 : p.riskPoints ≥ 70 <;> simp [testStep, h, h70] <;> omega
    · simp [testStep, h]

theorem foldl_testStep_safe (prompt : String) (ps : List InjectionPattern)
    (r : PromptTestResult) :
    (ps.foldl (testStep prompt) r).safe =
      (r.safe && !ps.any (fun p => p.regex prompt && decide ((70:Int) ≤ p.riskPoints))) := by
  induction ps generalizing r with
  | nil => simp
  | cons p ps ih =>
    simp only [List.foldl_cons, ih, List.any_cons]
    by_cases h : p.regex prompt
    · by_cases h70 : (70:Int) ≤ p.riskPoints
      · simp [testStep, h, show p.riskPoints ≥ 70 from h70, h70]
      · simp [testStep, h, show ¬ p.riskPoints ≥ 70 from h70, h70]
    · simp [testStep, h]

/-- The threat-classification ladder as the spec words it: a total order
over the capped score, evaluated highest-first. -/
def specThreatTier (score : Int) : String :=
  if score ≥ 80 then "CRITICAL"
  else if score ≥ 60 then "HIGH"
  else if score ≥ 40 then "MEDIUM"
  else if score ≥ 20 then "LOW"
  else "NONE"

theorem promptGuardTest_riskScore (ps : List InjectionPattern) (now : Int) (prompt : String) :
    (promptGuardTest ps now prompt).riskScore =
      if ((ps.filter (fun p => p.regex prompt)).map (fun p => p.riskPoints)).sum > 100 then 100
      else ((ps.filter (fun p => p.regex prompt)).map (fun p => p.riskPoints)).sum := by
  simp [promptGuardTest, foldl_testStep_riskScore]

theorem promptGuardTest_threatLevel_eq (ps : List InjectionPattern) (now : Int) (prompt : String) :
    (promptGuardTest ps now prompt).threatLevel =
      specThreatTier (promptGuardTest ps now prompt).riskScore := rfl

theorem promptGuardTest_safe_eq (ps : List InjectionPattern) (now : Int) (prompt : String) :
    (promptGuardTest ps now prompt).safe =
      !ps.any (fun p => p.regex prompt && decide ((70:Int) ≤ p.riskPoints)) := by
  simp [promptGuardTest, foldl_testStep_safe]

theorem testStep_preserves_testedAt (prompt : String) (r : PromptTestResult) (p : InjectionPattern) :
    (testStep prompt r p).testedAt = r.testedAt := by
  simp only [testStep]
  by_cases h : p.regex prompt
  · by_cases h70 : p.riskPoints ≥ 70 <;> simp [h, h70]
  · simp [h]

theorem foldl_testStep_preserves_testedAt (prompt : String) (ps : List InjectionPattern)
    (r : PromptTestResult) :
    (ps.foldl (testStep prompt) r).testedAt = r.testedAt := by
  induction ps generalizing r with
  | nil => rfl
  | cons p ps ih => simp only [List.foldl_cons, ih, testStep_preserves_testedAt]

theorem promptGuardTest_testedAt (ps : List InjectionPattern) (now : Int) (prompt : String) :
    (promptGuardTest ps now prompt).testedAt = now := by
  simp [promptGuardTest, foldl_testStep_preserves_testedAt]

/-! ### Phrase-matching lemmas -/

theorem stripWord_append (w s : List Char) : stripWord w (w ++ s) = some s := by
  induction w with
  | nil => rfl
  | cons a as ih => simp [stripWord, ih]

/-- A word usable in a `\s+`-joined phrase: nonempty and not starting
with whitespace. -/
def goodWord (w : List Char) : Bool :=
  match w with
  | [] => false
  | c :: _ => !isGoSpace c

/-- The words of a phrase joined by single spaces. -/
def joinWords : List (List Char) → List Char
  | [] => []
  | [w] => w
  | w :: ws => w ++ ' ' :: joinWords ws

theorem joinWords_cons_head (c : Char) (w' : List Char) (ws : List (List Char)) :
    ∃ r, joinWords ((c :: w') :: ws) = c :: r := by
  cases ws with
  | nil => exact ⟨w', rfl⟩
  | cons a b => exact ⟨w' ++ ' ' :: joinWords (a :: b), rfl⟩

theorem phraseMatchAt_cons_cons (w w2 : List Char) (ws : List (List Char)) (s : List Char) :
    phraseMatchAt (w :: w2 :: ws) s =
      match stripWord w s with
      | none => false
      | some r =>
        decide ((r.dropWhile isGoSpace).length < r.length) &&
          phraseMatchAt (w2 :: ws) (r.dropWhile isGoSpace) := by
  cases hsw : stripWord w s <;> simp only [phraseMatchAt, hsw]

theorem phraseMatchAt_joinWords (ws : List (List Char)) (tail : List Char)
    (h : ∀ w ∈ ws, goodWord w = true) :
    phraseMatchAt ws (joinWords ws ++ tail) = true := by
  induction ws with
  | nil => rfl
  | cons w ws ih =>
    cases ws with
    | nil => simp [phraseMatchAt, joinWords, stripWord_append]
    | cons w2 ws2 =>
      have hw2 : goodWord w2 = true := h w2 (by simp)
      obtain ⟨c, w2', rfl⟩ : ∃ c w2', w2 = c :: w2' := by
        cases w2 with
        | nil => simp [goodWord] at hw2
        | cons c w2' => exact ⟨c, w2', rfl⟩
      have hc : isGoSpace c = false := by simpa [goodWord] using hw2
      obtain ⟨r, hr⟩ := joinWords_cons_head c w2' ws2
      have hstep : joinWords (w :: (c :: w2') :: ws2) ++ tail =
          w ++ (' ' :: (joinWords ((c :: w2') :: ws2) ++ tail)) := by
        simp [joinWords]
      have hdrop : List.dropWhile isGoSpace (' ' :: (joinWords ((c :: w2') :: ws2) ++ tail)) =
          joinWords ((c :: w2') :: ws2) ++ tail := by
        rw [hr]
        show List.dropWhile isGoSpace (' ' :: c :: (r ++ tail)) = c :: r ++ tail
        rw [List.dropWhile_cons_of_pos (by decide), List.dropWhile_cons_of_neg (by simp [hc]),
          List.cons_append]
      have hrec := ih (fun w hw => h w (List.mem_cons_of_mem _ hw))
      rw [hstep, phraseMatchAt_cons_cons, stripWord_append]
      simp only [hdrop, hrec, List.length_cons, Bool.and_eq_true, decide_eq_true_eq, and_true]
      exact Nat.lt_succ_self _
theorem phraseSearch_of_matchAt (ws : List (List Char)) (pre s : List Char)
    (h : phraseMatchAt ws s = true) : phraseSearch ws (pre ++ s) = true := by
  induction pre with
  | nil =>
    cases s with
    | nil => simpa [phraseSearch] using h
    | cons c r => simp [phraseSearch, h]
  | cons c pre ih => simp [phraseSearch, ih]

/-- A prompt whose raw text contains the whitespace-joined lowercased
phrase matches the corresponding phrase alternation. -/
theorem matchPhrases_of_infix (alts : List (List (List Char))) (ws : List (List Char))
    (prompt : String) (hmem : ws ∈ alts) (hgood : ∀ w ∈ ws, goodWord w = true)
    (hlower : (joinWords ws).map charToLower = joinWords ws)
    (h : joinWords ws <:+: prompt.data) :
    matchPhrases alts prompt = true := by
  obtain ⟨pre, suf, hps⟩ := h
  refine List.any_eq_true.mpr ⟨ws, hmem, ?_⟩
  have hmap : prompt.data.map charToLower =
      pre.map charToLower ++ (joinWords ws ++ suf.map charToLower) := by
    rw [← hps]
    simp [List.map_append, hlower]
  rw [hmap]
  exact phraseSearch_of_matchAt ws _ _ (phraseMatchAt_joinWords ws _ hgood)

/-! ### PromptGuard claims -/

theorem promptGuardPatterns_nonneg : ∀ p ∈ promptGuardPatterns, 0 ≤ p.riskPoints := by
  intro p hp
  simp only [promptGuardPatterns, List.mem_cons, List.not_mem_nil, or_false] at hp
  rcases hp with h|h|h|h|h|h|h|h|h|h <;> subst h <;> decide

theorem ignore_pattern_mem :
    ({ name := "ignore_instructions", regex := matchPhrases ignoreInstructionsAlts,
       riskPoints := 100,
       description := "Attempt to override previous instructions" } : InjectionPattern)
      ∈ promptGuardPatterns := by
  unfold promptGuardPatterns
  exact List.mem_cons_self _ _

theorem ignoreInstructions_matches_of_infix (prompt : String)
    (h : "ignore all previous instructions".data <:+: prompt.data) :
    matchPhrases ignoreInstructionsAlts prompt = true := by
  have hws : ("ignore all previous instructions".data : List Char) =
      joinWords ["ignore".data, "all".data, "previous".data, "instructions".data] := by decide
  refine matchPhrases_of_infix ignoreInstructionsAlts
    ["ignore".data, "all".data, "previous".data, "instructions".data] prompt ?_ ?_ ?_ ?_
  · simp [ignoreInstructionsAlts]
  · decide
  · decide
  · rw [← hws]; exact h

theorem promptGuardTest_safe_false_of_hard (ps : List InjectionPattern) (now : Int)
    (prompt : String) (p : InjectionPattern) (hp : p ∈ ps) (hreg : p.regex prompt = true)
    (h70 : 70 ≤ p.riskPoints) : (promptGuardTest ps now prompt).safe = false := by
  rw [promptGuardTest_safe_eq]
  have : ps.any (fun p => p.regex prompt && decide ((70:Int) ≤ p.riskPoints)) = true :=
    List.any_eq_true.mpr ⟨p, hp, by simp [hreg, h70]⟩
  simp [this]

theorem promptGuardTest_riskScore_ge (ps : List InjectionPattern) (now : Int) (prompt : String)
    (p : InjectionPattern) (hp : p ∈ ps) (hreg : p.regex prompt = true)
    (hnn : ∀ q ∈ ps, 0 ≤ q.riskPoints) (h80 : 80 ≤ p.riskPoints) :
    80 ≤ (promptGuardTest ps now prompt).riskScore := by
  rw [promptGuardTest_riskScore]
  have hmemf : p ∈ ps.filter (fun p => p.regex prompt) := List.mem_filter.mpr ⟨hp, hreg⟩
  have hmemm : p.riskPoints ∈ (ps.filter (fun p => p.regex prompt)).map (fun p => p.riskPoints) :=
    List.mem_map_of_mem _ hmemf
  have hnn' : ∀ x ∈ (ps.filter (fun p => p.regex prompt)).map (fun p => p.riskPoints), 0 ≤ x := by
    intro x hx
    obtain ⟨q, hq, rfl⟩ := List.mem_map.mp hx
    exact hnn q (List.mem_filter.mp hq).1
  have hsum := List.single_le_sum hnn' _ hmemm
  split <;> omega

theorem specThreatTier_critical (score : Int) (h : 80 ≤ score) :
    specThreatTier score = "CRITICAL" := by
  simp [specThreatTier, show score ≥ 80 from h]

/-- C3: a prompt containing the exact phrase "ignore all previous
instructions" triggers the 100-point `ignore_instructions` rule, so the
result scores at least 80, is classified CRITICAL, and is unsafe no
matter which other rules also fire; and in general one triggered rule
worth at least 70 points forces `Safe = false` regardless of the
cumulative capped score. -/
theorem c3_ignore_instructions_critical :
    (∀ (now : Int) (prompt : String),
      "ignore all previous instructions".data <:+: prompt.data →
      matchPhrases ignoreInstructionsAlts prompt = true ∧
      80 ≤ (promptGuardTest promptGuardPatterns now prompt).riskScore ∧
      (promptGuardTest promptGuardPatterns now prompt).threatLevel = "CRITICAL" ∧
      (promptGuardTest promptGuardPatterns now prompt).safe = false) ∧
    (∀ (ps : List InjectionPattern) (now : Int) (prompt : String) (p : InjectionPattern),
      p ∈ ps → p.regex prompt = true → 70 ≤ p.riskPoints →
      (promptGuardTest ps now prompt).safe = false) := by
  constructor
  · intro now prompt hinf
    have hreg : matchPhrases ignoreInstructionsAlts prompt = true :=
      ignoreInstructions_matches_of_infix prompt hinf
    have hp := ignore_pattern_mem
    refine ⟨hreg, ?_, ?_, ?_⟩
    · exact promptGuardTest_riskScore_ge _ now prompt _ hp hreg
        promptGuardPatterns_nonneg (by decide)
    · rw [promptGuardTest_threatLevel_eq]
      exact specThreatTier_critical _ (promptGuardTest_riskScore_ge _ now prompt _ hp hreg
        promptGuardPatterns_nonneg (by decide))
    · exact promptGuardTest_safe_false_of_hard _ now prompt _ hp hreg (by decide)
  · intro ps now prompt p hp hreg h70
    exact promptGuardTest_safe_false_of_hard ps now prompt p hp hreg h70

/-- Witness for `c3_ignore_instructions_critical` on a concrete prompt. -/
theorem c3_ignore_instructions_critical_witness :
    (promptGuardTest promptGuardPatterns 7 "Please ignore all previous instructions now").threatLevel
        = "CRITICAL" ∧
    (promptGuardTest promptGuardPatterns 7 "Please ignore all previous instructions now").safe
        = false :=
  ⟨(c3_ignore_instructions_critical.1 7 "Please ignore all previous instructions now"
      (by decide)).2.2.1,
   (c3_ignore_instructions_critical.1 7 "Please ignore all previous instructions now"
      (by decide)).2.2.2⟩

/-- C4: the threat level is a function of the capped score alone,
evaluated highest-first with thresholds 80/60/40/20. -/
theorem c4_threat_tier_of_capped_score (ps : List InjectionPattern) (now : Int) (prompt : String) :
    (promptGuardTest ps now prompt).threatLevel =
      specThreatTier (promptGuardTest ps now prompt).riskScore :=
  promptGuardTest_threatLevel_eq ps now prompt

/-! ### Determinism of Test (C6) -/

theorem testStep_preserves_prompt (prompt : String) (r : PromptTestResult) (p : InjectionPattern) :
    (testStep prompt r p).prompt = r.prompt := by
  simp only [testStep]
  by_cases h : p.regex prompt
  · by_cases h70 : p.riskPoints ≥ 70 <;> simp [h, h70]
  · simp [h]

theorem foldl_testStep_preserves_prompt (prompt : String) (ps : List InjectionPattern)
    (r : PromptTestResult) :
    (ps.foldl (testStep prompt) r).prompt = r.prompt := by
  induction ps generalizing r with
  | nil => rfl
  | cons p ps ih => simp only [List.foldl_cons, ih, testStep_preserves_prompt]

/-- The detection line `fmt.Sprintf("%s: %s (+%d points)", ...)`. -/
def detectionString (p : InjectionPattern) : String :=
  p.name ++ ": " ++ p.description ++ " (+" ++ toString p.riskPoints ++ " points)"

theorem foldl_testStep_patterns (prompt : String) (ps : List InjectionPattern)
    (r : PromptTestResult) :
    (ps.foldl (testStep prompt) r).patterns =
      r.patterns ++ (ps.filter (fun p => p.regex prompt)).map (fun p => p.name) := by
  induction ps generalizing r with
  | nil => simp
  | cons p ps ih =>
    simp only [List.foldl_cons, ih, List.filter_cons]
    by_cases h : p.regex prompt
    · by_cases h70 : p.riskPoints ≥ 70 <;> simp [testStep, h, h70]
    · simp [testStep, h]

theorem foldl_testStep_detections (prompt : String) (ps : List InjectionPattern)
    (r : PromptTestResult) :
    (ps.foldl (testStep prompt) r).detections =
      r.detections ++
        (ps.filter (fun p => p.regex prompt && decide ((70:Int) ≤ p.riskPoints))).map
          detectionString := by
  induction ps generalizing r with
  | nil => simp
  | cons p ps ih =>
    simp only [List.foldl_cons, ih, List.filter_cons]
    by_cases h : p.regex prompt
    · by_cases h70 : (70:Int) ≤ p.riskPoints
      · simp [testStep, h, show p.riskPoints ≥ 70 from h70, h70, detectionString]
      · simp [testStep, h, show ¬ p.riskPoints ≥ 70 from h70, h70]
    · simp [testStep, h]

theorem foldl_testStep_warnings (prompt : String) (ps : List InjectionPattern)
    (r : PromptTestResult) :
    (ps.foldl (testStep prompt) r).warnings =
      r.warnings ++
        (ps.filter (fun p => p.regex prompt && !decide ((70:Int) ≤ p.riskPoints))).map
          detectionString := by
  induction ps generalizing r with
  | nil => simp
  | cons p ps ih =>
    simp only [List.foldl_cons, ih, List.filter_cons]
    by_cases h : p.regex prompt
    · by_cases h70 : (70:Int) ≤ p.riskPoints
      · simp [testStep, h, show p.riskPoints ≥ 70 from h70, h70]
      · simp [testStep, h, show ¬ p.riskPoints ≥ 70 from h70, h70, detectionString]
    · simp [testStep, h]

theorem promptTestResult_ext (x y : PromptTestResult)
    (h1 : x.prompt = y.prompt) (h2 : x.riskScore = y.riskScore) (h3 : x.safe = y.safe)
    (h4 : x.threatLevel = y.threatLevel) (h5 : x.patterns = y.patterns)
    (h6 : x.detections = y.detections) (h7 : x.warnings = y.warnings)
    (h8 : x.testedAt = y.testedAt) : x = y := by
  cases x; cases y; simp_all

theorem promptGuardTest_prompt (ps : List InjectionPattern) (now : Int) (prompt : String) :
    (promptGuardTest ps now prompt).prompt = prompt := by
  simp [promptGuardTest, foldl_testStep_preserves_prompt]

theorem promptGuardTest_patterns (ps : List InjectionPattern) (now : Int) (prompt : String) :
    (promptGuardTest ps now prompt).patterns =
      (ps.filter (fun p => p.regex prompt)).map (fun p => p.name) := by
  simp [promptGuardTest, foldl_testStep_patterns]

theorem promptGuardTest_detections (ps : List InjectionPattern) (now : Int) (prompt : String) :
    (promptGuardTest ps now prompt).detections =
      (ps.filter (fun p => p.regex prompt && decide ((70:Int) ≤ p.riskPoints))).map
        detectionString := by
  simp [promptGuardTest, foldl_testStep_detections]

theorem promptGuardTest_warnings (ps : List InjectionPattern) (now : Int) (prompt : String) :
    (promptGuardTest ps now prompt).warnings =
      (ps.filter (fun p => p.regex prompt && !decide ((70:Int) ≤ p.riskPoints))).map
        detectionString := by
  simp [promptGuardTest, foldl_testStep_warnings]

/-- C6 counterexample: two calls to `Test` on the identical prompt at
different wall-clock instants return results differing in the `TestedAt`
field, which is set from `time.Now()` inside `Test` itself. -/
theorem c6_timestamp_inside_test :
    promptGuardTest promptGuardPatterns 0 "hello" ≠
      promptGuardTest promptGuardPatterns 1 "hello" := by
  intro h
  have h0 := promptGuardTest_testedAt promptGuardPatterns 0 "hello"
  have h1 := promptGuardTest_testedAt promptGuardPatterns 1 "hello"
  rw [h, h1] at h0
  exact absurd h0 (by decide)

/-- C6 amended: `Test` is deterministic in every field except `TestedAt`:
two calls with the identical prompt and rule set at instants `t1`, `t2`
agree on prompt, risk score, safe flag, threat level, triggered patterns,
detections and warnings, and differ only in the timestamp attached at
result initialization. -/
theorem c6_deterministic_except_timestamp (ps : List InjectionPattern) (t1 t2 : Int)
    (prompt : String) :
    promptGuardTest ps t1 prompt = { promptGuardTest ps t2 prompt with testedAt := t1 } := by
  refine promptTestResult_ext _ _ ?_ ?_ ?_ ?_ ?_ ?_ ?_ ?_
  · rw [promptGuardTest_prompt]
    show prompt = (promptGuardTest ps t2 prompt).prompt
    rw [promptGuardTest_prompt]
  · show _ = (promptGuardTest ps t2 prompt).riskScore
    rw [promptGuardTest_riskScore, promptGuardTest_riskScore]
  · show _ = (promptGuardTest ps t2 prompt).safe
    rw [promptGuardTest_safe_eq, promptGuardTest_safe_eq]
  · show _ = (promptGuardTest ps t2 prompt).threatLevel
    rw [promptGuardTest_threatLevel_eq, promptGuardTest_threatLevel_eq,
      promptGuardTest_riskScore, promptGuardTest_riskScore]
  · show _ = (promptGuardTest ps t2 prompt).patterns
    rw [promptGuardTest_patterns, promptGuardTest_patterns]
  · show _ = (promptGuardTest ps t2 prompt).detections
    rw [promptGuardTest_detections, promptGuardTest_detections]
  · show _ = (promptGuardTest ps t2 prompt).warnings
    rw [promptGuardTest_warnings, promptGuardTest_warnings]
  · show _ = t1
    rw [promptGuardTest_testedAt]

/-! ## AgentScorer (src/unnamed/part_000 lines 350-451)

`Score` consults three collaborator probes (`checkSecurityStack`,
`checkTransactionHistory`, `check8004scanFeedback`); their outputs are
an explicit input record.  The float quantities become rationals, and
Go's `int(x)` conversion becomes truncation toward zero.  The
human-readable factor strings are embedded structurally as an inductive
of the factor lines the code appends. -/

/-- One entry of the `Factors` list built by `Score`. -/
inductive AgentFactor where
  | stackInstalled
  | noStackDetected
  | highFailedRate (rate : ℚ) (penalty : Int)
  | positiveFeedback (rating : ℚ) (bonus : Int)
  | recentlyRegistered
  | establishedAgent
  | collaborator (line : String)
  deriving Repr, DecidableEq

/-- `AgentScoreResult` (src/unnamed/part_000 lines 44-53). -/
structure AgentScoreResult where
  agentID : String
  securityScore : Int
  hasSecurityStack : Bool
  failedTxRate : ℚ
  registrationDays : Int
  feedbackRating : ℚ
  factors : List AgentFactor
  scoredAt : Int
  deriving Repr, DecidableEq

/-- Outputs of the three collaborator probes used by `Score`. -/
structure AgentCollaboratorData where
  hasStack : Bool
  stackFactors : List AgentFactor
  failedRate : ℚ
  txFactors : List AgentFactor
  rating : ℚ
  regDays : Int
  feedbackFactors : List AgentFactor
  deriving Repr, DecidableEq

/-- Go's `int(x)` conversion from float: truncation toward zero. -/
def goInt (q : ℚ) : Int := if 0 ≤ q then ⌊q⌋ else ⌈q⌉

/-- The raw point accumulation of `AgentScorer.Score` before the final
clamp: start at 100; +10 or -20 for the security stack; minus
`int(failedRate*50)` when the failed rate exceeds 0.1; plus
`int(rating*5)` when the rating is positive; -10 for registrations
younger than 30 days, +5 beyond 180 days. -/
def agentRawScore (ext : AgentCollaboratorData) : Int :=
  let s1 := if ext.hasStack then (100:Int) + 10 else 100 - 20
  let s2 := if ext.failedRate > 1/10 then s1 - goInt (ext.failedRate * 50) else s1
  let s3 := if ext.rating > 0 then s2 + goInt (ext.rating * 5) else s2
  if ext.regDays < 30 then s3 - 10 else if ext.regDays > 180 then s3 + 5 else s3

/-- `AgentScorer.Score` (src/unnamed/part_000 lines 365-424): builds the
result record alongside the score accumulation, then caps at 100 and
floors at 0. -/
def agentScorerScore (ext : AgentCollaboratorData) (now : Int) (agentID : String) :
    AgentScoreResult :=
  let factors1 :=
    (if ext.hasStack then [AgentFactor.stackInstalled] else [AgentFactor.noStackDetected]) ++
      ext.stackFactors
  let factors2 := factors1 ++
    (if ext.failedRate > 1/10 then
      [AgentFactor.highFailedRate ext.failedRate (goInt (ext.failedRate * 50))] else []) ++
    ext.txFactors
  let factors3 := factors2 ++
    (if ext.rating > 0 then [AgentFactor.positiveFeedback ext.rating (goInt (ext.rating * 5))]
     else []) ++
    (if ext.regDays < 30 then [AgentFactor.recentlyRegistered]
     else if ext.regDays > 180 then [AgentFactor.establishedAgent] else []) ++
    ext.feedbackFactors
  let raw := agentRawScore ext
  let capped := if raw > 100 then 100 else raw
  let floored := if capped < 0 then 0 else capped
  { agentID := agentID
    securityScore := floored
    hasSecurityStack := ext.hasStack
    failedTxRate := ext.failedRate
    registrationDays := ext.regDays
    feedbackRating := ext.rating
    factors := factors3
    scoredAt := now }

/-- The placeholder collaborator outputs currently hard-coded in the
source (`checkSecurityStack` returns `(false, [])`,
`checkTransactionHistory` returns `(0.0, [])`, `check8004scanFeedback`
returns `(0, 0, [])`). -/
def placeholderCollaborators : AgentCollaboratorData :=
  { hasStack := false, stackFactors := [], failedRate := 0, txFactors := [],
    rating := 0, regDays := 0, feedbackFactors := [] }

theorem agentScorerScore_securityScore (ext : AgentCollaboratorData) (now : Int)
    (agentID : String) :
    (agentScorerScore ext now agentID).securityScore =
      (if (if agentRawScore ext > 100 then 100 else agentRawScore ext) < 0 then 0
       else if agentRawScore ext > 100 then 100 else agentRawScore ext) := rfl

/-- C5: both rule-score evaluators return a final score in [0,100]:
`PromptGuard.Test` for every prompt (and every instant), and
`AgentScorer.Score` for every agent id and every collaborator outcome;
for the latter the accumulation is capped at 100 from above and floored
at 0 from below. -/
theorem c5_scores_in_range :
    (∀ (now : Int) (prompt : String),
      0 ≤ (promptGuardTest promptGuardPatterns now prompt).riskScore ∧
      (promptGuardTest promptGuardPatterns now prompt).riskScore ≤ 100) ∧
    (∀ (ext : AgentCollaboratorData) (now : Int) (agentID : String),
      0 ≤ (agentScorerScore ext now agentID).securityScore ∧
      (agentScorerScore ext now agentID).securityScore ≤ 100 ∧
      (agentRawScore ext > 100 → (agentScorerScore ext now agentID).securityScore = 100) ∧
      (agentRawScore ext < 0 → (agentScorerScore ext now agentID).securityScore = 0)) := by
  constructor
  · intro now prompt
    rw [promptGuardTest_riskScore]
    have hnn : ∀ x ∈ (promptGuardPatterns.filter (fun p => p.regex prompt)).map
        (fun p => p.riskPoints), 0 ≤ x := by
      intro x hx
      obtain ⟨q, hq, rfl⟩ := List.mem_map.mp hx
      exact promptGuardPatterns_nonneg q (List.mem_filter.mp hq).1
    have hsum := List.sum_nonneg hnn
    constructor <;> split <;> omega
  · intro ext now agentID
    rw [agentScorerScore_securityScore]
    refine ⟨?_, ?_, ?_, ?_⟩ <;> intros <;> split <;> (try split) <;> omega

/-- Witness for `c5_scores_in_range` (its clamp conjuncts carry
hypotheses): at the placeholder collaborators the score is 70, inside
the range. -/
theorem c5_scores_in_range_witness :
    0 ≤ (agentScorerScore placeholderCollaborators 3 "0xagent").securityScore ∧
    (agentScorerScore placeholderCollaborators 3 "0xagent").securityScore ≤ 100 ∧
    (agentScorerScore placeholderCollaborators 3 "0xagent").securityScore = 70 :=
  ⟨(c5_scores_in_range.2 placeholderCollaborators 3 "0xagent").1,
   (c5_scores_in_range.2 placeholderCollaborators 3 "0xagent").2.1,
   by norm_num [agentScorerScore, agentRawScore, placeholderCollaborators]⟩

/-! ## Metrics collector (src/unnamed/part_001 lines 72-214)

Counters live in Go maps, embedded as association lists (`alookup`,
`aset`); a missing key reads as zero.  Durations (`float64` seconds)
become rationals.  `PrometheusFormat` produces line-oriented text; it is
embedded as a list of structured lines, with the `le` histogram label
kept as the rational bucket boundary (`none` for the +Inf bucket)
instead of its decimal rendering. -/

/-- Increment of a Go `map[string]int64` entry (zero when absent). -/
def incr (k : String) (m : List (String × Int)) : List (String × Int) :=
  match alookup k m with
  | none => aset k 1 m
  | some v => aset k (v + 1) m

/-- `Metrics` (src/unnamed/part_001 lines 73-90). -/
structure Metrics where
  requestsTotal : List (String × Int)
  requestsByStatus : List (String × List (String × Int))
  paymentsTotal : Int
  paymentsByEndpoint : List (String × Int)
  paymentAmountUSD : ℚ
  responseTimeBuckets : List (String × List ℚ)
  startTime : ℚ
  deriving Repr, DecidableEq

/-- `NewMetrics`: all series empty. -/
def newMetrics (startTime : ℚ) : Metrics :=
  { requestsTotal := [], requestsByStatus := [], paymentsTotal := 0,
    paymentsByEndpoint := [], paymentAmountUSD := 0, responseTimeBuckets := [],
    startTime := startTime }

/-- `Metrics.RecordRequest`. -/
def recordRequest (m : Metrics) (endpoint status : String) : Metrics :=
  let inner := match alookup endpoint m.requestsByStatus with
    | none => []
    | some im => im
  { m with requestsTotal := incr endpoint m.requestsTotal
           requestsByStatus := aset endpoint (incr status inner) m.requestsByStatus }

/-- `Metrics.RecordPayment`. -/
def recordPayment (m : Metrics) (endpoint : String) (amountUSD : ℚ) : Metrics :=
  { m with paymentsTotal := m.paymentsTotal + 1
           paymentsByEndpoint := incr endpoint m.paymentsByEndpoint
           paymentAmountUSD := m.paymentAmountUSD + amountUSD }

/-- `Metrics.RecordResponseTime`: append, keeping the last 1000 samples. -/
def recordResponseTime (m : Metrics) (endpoint : String) (seconds : ℚ) : Metrics :=
  let ts := (match alookup endpoint m.responseTimeBuckets with
    | none => []
    | some l => l) ++ [seconds]
  let ts := if ts.length > 1000 then ts.drop 1 else ts
  { m with responseTimeBuckets := aset endpoint ts m.responseTimeBuckets }

/-- One line of the Prometheus exposition output. -/
inductive MetricLine where
  | comment (text : String)
  | intSample (metric : String) (labels : List (String × String)) (value : Int)
  | ratSample (metric : String) (labels : List (String × String)) (value : ℚ)
  | bucketSample (metric endpoint : String) (le : Option ℚ) (value : Int)
  deriving Repr, DecidableEq

/-- The static bucket boundaries (0.01, 0.025, 0.05, 0.1, 0.25, 0.5, 1,
2.5, 5, 10 seconds). -/
def histogramBuckets : List ℚ :=
  [1/100, 1/40, 1/20, 1/10, 1/4, 1/2, 1, 5/2, 5, 10]

/-- The histogram block rendered per endpoint with at least one sample
(src/unnamed/part_001 lines 182-211). -/
def histogramLines (endpoint : String) (times : List ℚ) : List MetricLine :=
  if times.length = 0 then []
  else
    let sorted := times.mergeSort (· ≤ ·)
    let count := sorted.length
    let sum := sorted.sum
    (histogramBuckets.map (fun b =>
      MetricLine.bucketSample "x402_response_time_seconds_bucket" endpoint (some b)
        (sorted.countP (fun t => t ≤ b))))
    ++ [MetricLine.bucketSample "x402_response_time_seconds_bucket" endpoint none (count : Int),
        MetricLine.ratSample "x402_response_time_seconds_sum" [("endpoint", endpoint)] sum,
        MetricLine.intSample "x402_response_time_seconds_count" [("endpoint", endpoint)]
          (count : Int)]

/-- `Metrics.PrometheusFormat` (src/unnamed/part_001 lines 139-214) as a
list of structured lines, in output order. -/
def prometheusFormat (m : Metrics) (now : ℚ) : List MetricLine :=
  [MetricLine.comment "HELP x402_uptime_seconds Service uptime",
   MetricLine.comment "TYPE x402_uptime_seconds gauge",
   MetricLine.ratSample "x402_uptime_seconds" [] (now - m.startTime),
   MetricLine.comment "HELP x402_requests_total Total requests by endpoint",
   MetricLine.comment "TYPE x402_requests_total counter"]
  ++ m.requestsTotal.map (fun kv =>
      MetricLine.intSample "x402_requests_total" [("endpoint", kv.1)] kv.2)
  ++ [MetricLine.comment "HELP x402_requests_by_status_total Requests by endpoint and status",
      MetricLine.comment "TYPE x402_requests_by_status_total counter"]
  ++ m.requestsByStatus.flatMap (fun kv =>
      kv.2.map (fun sv =>
        MetricLine.intSample "x402_requests_by_status_total"
          [("endpoint", kv.1), ("status", sv.1)] sv.2))
  ++ [MetricLine.comment "HELP x402_payments_total Total successful payments",
      MetricLine.comment "TYPE x402_payments_total counter",
      MetricLine.intSample "x402_payments_total" [] m.paymentsTotal,
      MetricLine.comment "HELP x402_payments_by_endpoint_total Payments by endpoint",
      MetricLine.comment "TYPE x402_payments_by_endpoint_total counter"]
  ++ m.paymentsByEndpoint.map (fun kv =>
      MetricLine.intSample "x402_payments_by_endpoint_total" [("endpoint", kv.1)] kv.2)
  ++ [MetricLine.comment "HELP x402_payment_amount_usd_total Total payment amount in USD",
      MetricLine.comment "TYPE x402_payment_amount_usd_total counter",
      MetricLine.ratSample "x402_payment_amount_usd_total" [] m.paymentAmountUSD,
      MetricLine.comment "HELP x402_response_time_seconds Response time in seconds",
      MetricLine.comment "TYPE x402_response_time_seconds histogram"]
  ++ m.responseTimeBuckets.flatMap (fun kv => histogramLines kv.1 kv.2)

/-- The write operations that produce a reachable metrics state. -/
inductive MetricEvent where
  | request (endpoint status : String)
  | payment (endpoint : String) (amountUSD : ℚ)
  | responseTime (endpoint : String) (seconds : ℚ)
  deriving Repr, DecidableEq

def applyEvent (m : Metrics) (e : MetricEvent) : Metrics :=
  match e with
  | .request en st => recordRequest m en st
  | .payment en amt => recordPayment m en amt
  | .responseTime en s => recordResponseTime m en s

/-- A metrics state reached by a sequence of record calls from `NewMetrics`. -/
def runEvents (startTime : ℚ) (es : List MetricEvent) : Metrics :=
  es.foldl applyEvent (newMetrics startTime)

/-! ### Association-list and reachability lemmas for the metrics maps -/

theorem alookup_eq_none_iff {β : Type} (k : String) (l : List (String × β)) :
    alookup k l = none ↔ k ∉ l.map Prod.fst := by
  induction l with
  | nil => simp [alookup]
  | cons kv rest ih =>
    by_cases h : kv.1 = k
    · simp [alookup, h]
    · simp [alookup, h, ih, Ne.symm h]

theorem map_fst_aset {β : Type} (k : String) (v : β) (l : List (String × β)) :
    (aset k v l).map Prod.fst =
      if k ∈ l.map Prod.fst then l.map Prod.fst else l.map Prod.fst ++ [k] := by
  induction l with
  | nil => simp [aset]
  | cons kv rest ih =>
    by_cases h : kv.1 = k
    · simp [aset, h]
    · have h' : ¬ (k = kv.1) := fun hh => h hh.symm
      simp only [aset, h, if_false, List.map_cons, List.mem_cons, h', false_or, ih]
      by_cases hm : k ∈ rest.map Prod.fst
      · simp [hm]
      · simp [hm]

theorem map_fst_incr (k : String) (l : List (String × Int)) :
    (incr k l).map Prod.fst =
      if k ∈ l.map Prod.fst then l.map Prod.fst else l.map Prod.fst ++ [k] := by
  unfold incr
  cases alookup k l <;> simp [map_fst_aset]

theorem nodup_map_fst_aset {β : Type} (k : String) (v : β) (l : List (String × β))
    (h : (l.map Prod.fst).Nodup) : ((aset k v l).map Prod.fst).Nodup := by
  rw [map_fst_aset]
  by_cases hm : k ∈ l.map Prod.fst
  · simpa [hm] using h
  · simp [hm, List.nodup_append, h]

theorem nodup_map_fst_incr (k : String) (l : List (String × Int))
    (h : (l.map Prod.fst).Nodup) : ((incr k l).map Prod.fst).Nodup := by
  unfold incr
  cases alookup k l <;> exact nodup_map_fst_aset _ _ _ h

theorem mem_keys_applyEvent (m : Metrics) (ev : MetricEvent) (e : String)
    (h : e ∈ m.requestsTotal.map Prod.fst) :
    e ∈ (applyEvent m ev).requestsTotal.map Prod.fst := by
  cases ev with
  | request en st =>
    simp only [applyEvent, recordRequest, map_fst_incr]
    split
    · exact h
    · simp [h]
  | payment en amt => exact h
  | responseTime en s => exact h

theorem mem_keys_foldl_mono (es : List MetricEvent) (m : Metrics) (e : String)
    (h : e ∈ m.requestsTotal.map Prod.fst) :
    e ∈ (es.foldl applyEvent m).requestsTotal.map Prod.fst := by
  induction es generalizing m with
  | nil => exact h
  | cons ev es ih => exact ih _ (mem_keys_applyEvent m ev e h)

theorem mem_keys_foldl_of_event (es : List MetricEvent) (m : Metrics) (e st : String)
    (h : MetricEvent.request e st ∈ es) :
    e ∈ (es.foldl applyEvent m).requestsTotal.map Prod.fst := by
  induction es generalizing m with
  | nil => cases h
  | cons ev es ih =>
    rcases List.mem_cons.mp h with heq | hmem
    · subst heq
      rw [List.foldl_cons]
      refine mem_keys_foldl_mono es _ e ?_
      show e ∈ (recordRequest m e st).requestsTotal.map Prod.fst
      simp only [recordRequest, map_fst_incr]
      split
      · assumption
      · simp
    · exact ih _ hmem

theorem nodup_keys_applyEvent (m : Metrics) (ev : MetricEvent)
    (h : (m.requestsTotal.map Prod.fst).Nodup) :
    ((applyEvent m ev).requestsTotal.map Prod.fst).Nodup := by
  cases ev with
  | request en st => exact nodup_map_fst_incr _ _ h
  | payment en amt => exact h
  | responseTime en s => exact h

theorem nodup_keys_foldl (es : List MetricEvent) (m : Metrics)
    (h : (m.requestsTotal.map Prod.fst).Nodup) :
    ((es.foldl applyEvent m).requestsTotal.map Prod.fst).Nodup := by
  induction es generalizing m with
  | nil => exact h
  | cons ev es ih => exact ih _ (nodup_keys_applyEvent m ev h)

/-! ### Counting the requests-total lines in the rendered output -/

/-- Recognizes the `x402_requests_total` counter line for one endpoint. -/
def isRequestsTotalLineFor (endpoint : String) (l : MetricLine) : Bool :=
  match l with
  | MetricLine.intSample nm labels _ =>
    decide (nm = "x402_requests_total" ∧ labels = [("endpoint", endpoint)])
  | _ => false

theorem countP_histogramLines (endpoint e : String) (ts : List ℚ) :
    (histogramLines e ts).countP (isRequestsTotalLineFor endpoint) = 0 := by
  rw [List.countP_eq_zero]
  intro a ha
  unfold histogramLines at ha
  split at ha
  · cases ha
  · simp only [List.mem_append, List.mem_map, List.mem_cons, List.not_mem_nil, or_false] at ha
    rcases ha with ⟨b, _, rfl⟩ | rfl | rfl | rfl <;> simp [isRequestsTotalLineFor]

theorem countP_prometheusFormat (m : Metrics) (now : ℚ) (endpoint : String) :
    (prometheusFormat m now).countP (isRequestsTotalLineFor endpoint) =
      m.requestsTotal.countP (fun kv => decide (kv.1 = endpoint)) := by
  unfold prometheusFormat
  repeat rw [List.countP_append]
  have h1 : (m.requestsTotal.map (fun kv =>
      MetricLine.intSample "x402_requests_total" [("endpoint", kv.1)] kv.2)).countP
        (isRequestsTotalLineFor endpoint) =
      m.requestsTotal.countP (fun kv => decide (kv.1 = endpoint)) := by
    rw [List.countP_map]
    refine List.countP_congr ?_
    intro kv _
    simp [isRequestsTotalLineFor, Function.comp]
  have h2 : (m.requestsByStatus.flatMap (fun kv =>
      kv.2.map (fun sv => MetricLine.intSample "x402_requests_by_status_total"
        [("endpoint", kv.1), ("status", sv.1)] sv.2))).countP
        (isRequestsTotalLineFor endpoint) = 0 := by
    rw [List.countP_eq_zero]
    intro a ha
    obtain ⟨kv, _, ha2⟩ := List.mem_flatMap.mp ha
    obtain ⟨sv, _, rfl⟩ := List.mem_map.mp ha2
    simp [isRequestsTotalLineFor]
  have h3 : (m.paymentsByEndpoint.map (fun kv =>
      MetricLine.intSample "x402_payments_by_endpoint_total"
        [("endpoint", kv.1)] kv.2)).countP (isRequestsTotalLineFor endpoint) = 0 := by
    rw [List.countP_eq_zero]
    intro a ha
    obtain ⟨kv, _, rfl⟩ := List.mem_map.mp ha
    simp [isRequestsTotalLineFor]
  have h4 : (m.responseTimeBuckets.flatMap (fun kv =>
      histogramLines kv.1 kv.2)).countP (isRequestsTotalLineFor endpoint) = 0 := by
    rw [List.countP_eq_zero]
    intro a ha
    obtain ⟨kv, _, ha2⟩ := List.mem_flatMap.mp ha
    have := countP_histogramLines endpoint kv.1 kv.2
    rw [List.countP_eq_zero] at this
    exact this a ha2
  rw [h1, h2, h3, h4]
  simp [List.countP_cons, isRequestsTotalLineFor]

/-! ### Histogram bucket monotonicity -/

/-- The value carried by a histogram bucket line. -/
def bucketLineValue : MetricLine → Option Int
  | MetricLine.bucketSample _ _ _ v => some v
  | _ => none

theorem histogramLines_bucketValues (endpoint : String) (times : List ℚ) (h : times ≠ []) :
    (histogramLines endpoint times).filterMap bucketLineValue =
      (histogramBuckets.map (fun b =>
        (((times.mergeSort (· ≤ ·)).countP (fun t => t ≤ b) : Nat) : Int))) ++
        [(times.length : Int)] := by
  unfold histogramLines
  rw [if_neg (by simpa using h)]
  simp only [List.filterMap_append, List.filterMap_map, List.filterMap_cons, List.filterMap_nil,
    Function.comp, bucketLineValue]
  rw [(List.mergeSort_perm times (fun a b => a ≤ b)).length_eq]
  rfl

theorem chain_bucket_counts (l : List ℚ) :
    List.Chain' (· ≤ ·)
      ((histogramBuckets.map (fun b => ((l.countP (fun t => t ≤ b) : Nat) : Int))) ++
        [(l.length : Int)]) := by
  rw [List.chain'_append]
  refine ⟨?_, List.chain'_singleton _, ?_⟩
  · rw [List.chain'_map]
    have hb : List.Chain' (fun a b : ℚ => a ≤ b) histogramBuckets := by
      unfold histogramBuckets
      simp only [List.chain'_cons, List.chain'_singleton, and_true]
      norm_num
    refine hb.imp ?_
    intro a b hab
    have hc : l.countP (fun t => t ≤ a) ≤ l.countP (fun t => t ≤ b) := by
      apply List.countP_mono_left
      intro x _ hx
      simp only [decide_eq_true_eq] at hx ⊢
      exact le_trans hx hab
    exact_mod_cast hc
  · intro x hx y hy
    simp only [List.head?_cons] at hy
    have hx' := List.mem_of_mem_getLast? hx
    obtain ⟨b, _, rfl⟩ := List.mem_map.mp hx'
    have hle : l.countP (fun t => t ≤ b) ≤ l.length := List.countP_le_length _
    have hy' : ((l.length : Int)) = y := by simpa using hy
    rw [← hy']
    exact_mod_cast hle

/-- C8: in the rendered output of any reachable metrics state there is
exactly one `x402_requests_total` counter line for each endpoint that
has recorded at least one request; and in any endpoint's response-time
histogram block the cumulative bucket values are non-decreasing as the
boundary increases, with the final (+Inf) bucket equal to the total
sample count. -/
theorem c8_requests_lines_and_histogram (t0 now : ℚ) (es : List MetricEvent) (endpoint : String) :
    ((∃ st, MetricEvent.request endpoint st ∈ es) →
      (prometheusFormat (runEvents t0 es) now).countP (isRequestsTotalLineFor endpoint) = 1) ∧
    (∀ times : List ℚ, times ≠ [] →
      (histogramLines endpoint times).filterMap bucketLineValue =
        (histogramBuckets.map (fun b =>
          (((times.mergeSort (· ≤ ·)).countP (fun t => t ≤ b) : Nat) : Int))) ++
          [(times.length : Int)] ∧
      List.Chain' (· ≤ ·) ((histogramLines endpoint times).filterMap bucketLineValue) ∧
      ((histogramLines endpoint times).filterMap bucketLineValue).getLast? =
        some (times.length : Int)) := by
  constructor
  · rintro ⟨st, hst⟩
    rw [countP_prometheusFormat]
    have hkey : endpoint ∈ (runEvents t0 es).requestsTotal.map Prod.fst :=
      mem_keys_foldl_of_event es _ endpoint st hst
    have hnodup : ((runEvents t0 es).requestsTotal.map Prod.fst).Nodup :=
      nodup_keys_foldl es _ (by simp [newMetrics])
    have hcount : ((runEvents t0 es).requestsTotal.map Prod.fst).count endpoint = 1 :=
      List.count_eq_one_of_mem hnodup hkey
    rw [← hcount, List.count, List.countP_map]
    refine List.countP_congr ?_
    intro kv _
    simp [Function.comp]
  · intro times h
    have hv := histogramLines_bucketValues endpoint times h
    refine ⟨hv, ?_, ?_⟩
    · rw [hv, ← (List.mergeSort_perm times (fun a b => a ≤ b)).length_eq]
      exact chain_bucket_counts _
    · rw [hv]; exact List.getLast?_concat _

/-- Witness for `c8_requests_lines_and_histogram` at one recorded
request and a one-sample duration series. -/
theorem c8_requests_lines_and_histogram_witness :
    (prometheusFormat (runEvents 0 [MetricEvent.request "/api/gas" "200"]) 5).countP
      (isRequestsTotalLineFor "/api/gas") = 1 ∧
    List.Chain' (· ≤ ·) ((histogramLines "/api/gas" [1/2]).filterMap bucketLineValue) :=
  ⟨(c8_requests_lines_and_histogram 0 5 [MetricEvent.request "/api/gas" "200"] "/api/gas").1
      ⟨"200", by simp⟩,
   ((c8_requests_lines_and_histogram 0 5 [MetricEvent.request "/api/gas" "200"] "/api/gas").2
      [1/2] (by simp)).2.1⟩

/-! ## ContractScanner (src/unnamed/part_000 lines 164-263)

`Scan` stores `*ContractScanResult` pointers in its 24-hour cache and,
on a cache hit, assigns `result.Cached = true` through the shared
pointer.  The embedding makes the pointer store explicit: results live
in a heap indexed by allocation addresses; the cache maps the cache key
to the stored address plus its expiry instant; callers receive the
address of the result object.  The upstream probes (`checkVerification`,
`checkProxy`, `checkHoneypotIndicators`, `analyzeContractPatterns`) are
external collaborators whose outcomes are an explicit input. -/

/-- `ContractScanResult` (src/unnamed/part_000 lines 24-36). -/
structure ContractScanResult where
  address : String
  chain : String
  riskScore : Int
  isVerified : Bool
  isProxy : Bool
  isHoneypot : Bool
  flags : List String
  warnings : List String
  cached : Bool
  cachedAt : Int
  scannedAt : Int
  deriving Repr, DecidableEq

/-- One entry of `analyzeContractPatterns`' result (`riskPattern`). -/
structure ScanPattern where
  name : String
  score : Int
  description : String
  deriving Repr, DecidableEq

/-- Outcomes of the scanner's external probes; `none` models an error
from the corresponding HTTP call. -/
structure ScanUpstream where
  verification : Option Bool
  proxy : Option Bool
  honeypot : Bool
  riskPatterns : List ScanPattern
  deriving Repr, DecidableEq

/-- Heap lookup of a result object by its allocation address. -/
def hlookup (a : Nat) : List (Nat × ContractScanResult) → Option ContractScanResult
  | [] => none
  | (a', r) :: rest => if a' = a then some r else hlookup a rest

/-- Heap update at an allocation address. -/
def hset (a : Nat) (r : ContractScanResult) :
    List (Nat × ContractScanResult) → List (Nat × ContractScanResult)
  | [] => [(a, r)]
  | (a', r') :: rest => if a' = a then (a', r) :: rest else (a', r') :: hset a r rest

/-- The scanner state: the heap of result objects, the next fresh
address, and the pointer cache (key to address and expiry instant). -/
structure ScannerState where
  heap : List (Nat × ContractScanResult)
  nextAddr : Nat
  cache : List (String × (Nat × Int))
  deriving Repr, DecidableEq

/-- `NewContractScanner` uses `NewCache(24 * time.Hour)`. -/
def contractCacheTTL : Int := 86400

/-- The fresh computation of `Scan` on a cache miss (src/unnamed/part_000
lines 200-257): accumulate score and flags from the probes, then cap the
risk score at 100. -/
def computeScanResult (up : ScanUpstream) (now : Int) (address chain : String) :
    ContractScanResult :=
  let r0 : ContractScanResult :=
    { address := address, chain := chain, riskScore := 0, isVerified := false,
      isProxy := false, isHoneypot := false, flags := [], warnings := [],
      cached := false, cachedAt := 0, scannedAt := now }
  let r1 := match up.verification with
    | none => r0
    | some verified =>
      let ra := { r0 with isVerified := verified }
      if verified then ra
      else { ra with riskScore := ra.riskScore + 30
                     flags := ra.flags ++ ["unverified_contract"]
                     warnings := ra.warnings ++ ["Contract source code is not verified"] }
  let r2 := match up.proxy with
    | none => r1
    | some isProxy =>
      let rb := { r1 with isProxy := isProxy }
      if isProxy then
        { rb with warnings := rb.warnings ++ ["Contract is a proxy - check implementation"] }
      else rb
  let r3 := { r2 with isHoneypot := up.honeypot }
  let r4 :=
    if up.honeypot then
      { r3 with riskScore := r3.riskScore + 50
                flags := r3.flags ++ ["honeypot_indicators"]
                warnings := r3.warnings ++ ["Honeypot patterns detected - extreme caution"] }
    else r3
  let r5 := up.riskPatterns.foldl (fun (r : ContractScanResult) (p : ScanPattern) =>
    { r with riskScore := r.riskScore + p.score
             flags := r.flags ++ [p.name]
             warnings := r.warnings ++ [p.description] }) r4
  if r5.riskScore > 100 then { r5 with riskScore := 100 } else r5

/-- Cache-miss path of `Scan`: compute, allocate the result object, and
cache its address with a 24-hour expiry. -/
def scanStore (up : ScanUpstream) (now : Int) (addr chain : String) (s : ScannerState) :
    Option (Nat × ScannerState) :=
  let result := computeScanResult up now addr chain
  some (s.nextAddr,
    { heap := hset s.nextAddr result s.heap
      nextAddr := s.nextAddr + 1
      cache := aset ("contract:" ++ chain ++ ":" ++ addr)
        (s.nextAddr, now + contractCacheTTL) s.cache })

/-- `ContractScanner.Scan` (src/unnamed/part_000 lines 185-263): lowercase
the address, reject a missing "0x" prefix, consult the cache (a read past
the expiry instant misses), and on a hit set `Cached = true` on the
stored object through the shared pointer before returning its address. -/
def contractScannerScan (up : ScanUpstream) (now : Int) (address chain : String)
    (s : ScannerState) : Option (Nat × ScannerState) :=
  let addr := strToLower address
  if (stripWord "0x".data addr.data).isSome then
    match alookup ("contract:" ++ chain ++ ":" ++ addr) s.cache with
    | some pe =>
      if now > pe.2 then scanStore up now addr chain s
      else
        match hlookup pe.1 s.heap with
        | some r => some (pe.1, { s with heap := hset pe.1 { r with cached := true } s.heap })
        | none => none
    | none => scanStore up now addr chain s
  else none

theorem hlookup_hset_self (a : Nat) (r : ContractScanResult)
    (l : List (Nat × ContractScanResult)) : hlookup a (hset a r l) = some r := by
  induction l with
  | nil => simp [hset, hlookup]
  | cons kv rest ih =>
    by_cases h : kv.1 = a
    · simp [hset, hlookup, h]
    · simp [hset, hlookup, h, ih]

theorem hlookup_hset_ne (b a : Nat) (r : ContractScanResult)
    (l : List (Nat × ContractScanResult)) (h : b ≠ a) :
    hlookup b (hset a r l) = hlookup b l := by
  have hab : ¬ a = b := fun hh => h hh.symm
  induction l with
  | nil => simp [hset, hlookup, hab]
  | cons kv rest ih =>
    by_cases hk : kv.1 = a
    · simp [hset, hlookup, hk, hab]
    · simp [hset, hlookup, hk, ih]

/-! ### C9: results served from the cache are mutated in place -/

/-- Demo upstream outcomes: verified contract, no proxy, no honeypot. -/
def scanDemoUpstream : ScanUpstream :=
  { verification := some true, proxy := some false, honeypot := false, riskPatterns := [] }

/-- The empty scanner state. -/
def scanDemoState0 : ScannerState := { heap := [], nextAddr := 0, cache := [] }

/-- State after the first scan of 0xAbC on base at time 0 (cache miss). -/
def scanDemoState1 : ScannerState :=
  ((contractScannerScan scanDemoUpstream 0 "0xAbC" "base" scanDemoState0).map Prod.snd).getD
    scanDemoState0

/-- State after the second scan of the same address at time 1 (cache hit). -/
def scanDemoState2 : ScannerState :=
  ((contractScannerScan scanDemoUpstream 1 "0xAbC" "base" scanDemoState1).map Prod.snd).getD
    scanDemoState1

/-- The result object allocated by the first scan. -/
def scanDemoResult : ContractScanResult :=
  { address := "0xabc", chain := "base", riskScore := 0, isVerified := true, isProxy := false,
    isHoneypot := false, flags := [], warnings := [], cached := false, cachedAt := 0,
    scannedAt := 0 }

/-- C9 counterexample: the first scan returns the object at address 0
with `Cached = false`; the second scan (a cache hit) flips the stored
object's `Cached` field to `true`, mutating the result already returned
to the first caller. -/
theorem c9_cache_hit_mutates_returned_result :
    contractScannerScan scanDemoUpstream 0 "0xAbC" "base" scanDemoState0 =
      some (0, scanDemoState1) ∧
    hlookup 0 scanDemoState1.heap = some scanDemoResult ∧
    contractScannerScan scanDemoUpstream 1 "0xAbC" "base" scanDemoState1 =
      some (0, scanDemoState2) ∧
    hlookup 0 scanDemoState2.heap = some { scanDemoResult with cached := true } ∧
    hlookup 0 scanDemoState1.heap ≠ hlookup 0 scanDemoState2.heap := by
  decide

/-- C9 amended: a later `Scan` never changes any field of a result
object previously returned to a caller other than `Cached`: the object
is either untouched or, when the later scan hits the cache entry
pointing at it, its `Cached` field is set to `true` (through the shared
pointer), all other fields unchanged. -/
theorem c9_mutation_only_cached (up : ScanUpstream) (now : Int) (address chain : String)
    (s : ScannerState) (a : Nat) (r : ContractScanResult)
    (hne : a ≠ s.nextAddr) (hr : hlookup a s.heap = some r) :
    ∀ p s', contractScannerScan up now address chain s = some (p, s') →
      hlookup a s'.heap = some r ∨ hlookup a s'.heap = some { r with cached := true } := by
  intro p s' hscan
  simp only [contractScannerScan] at hscan
  have hmiss : scanStore up now (strToLower address) chain s = some (p, s') →
      hlookup a s'.heap = some r ∨ hlookup a s'.heap = some { r with cached := true } := by
    intro hs
    simp only [scanStore, Option.some.injEq, Prod.mk.injEq] at hs
    obtain ⟨hp, hs'⟩ := hs
    subst hs'
    left
    show hlookup a
      (hset s.nextAddr (computeScanResult up now (strToLower address) chain) s.heap) = some r
    rw [hlookup_hset_ne a s.nextAddr _ _ hne]
    exact hr
  by_cases hpre : (stripWord "0x".data (strToLower address).data).isSome
  · rw [if_pos hpre] at hscan
    split at hscan
    next pe hcl =>
      split at hscan
      · exact hmiss hscan
      · split at hscan
        next rp hhl =>
          simp only [Option.some.injEq, Prod.mk.injEq] at hscan
          obtain ⟨hp, hs'⟩ := hscan
          subst hs'
          by_cases hpa : pe.1 = a
          · have h1 : hlookup a s.heap = some rp := by rw [← hpa]; exact hhl
            rw [h1] at hr
            injection hr with hrr
            subst hrr
            right
            show hlookup a (hset pe.1 { rp with cached := true } s.heap) = _
            rw [hpa, hlookup_hset_self]
          · left
            show hlookup a (hset pe.1 { rp with cached := true } s.heap) = some r
            rw [hlookup_hset_ne a pe.1 _ _ (fun hh => hpa hh.symm)]
            exact hr
        next hhl => cases hscan
    next hcl => exact hmiss hscan
  · rw [if_neg hpre] at hscan
    cases hscan

/-- Witness for `c9_mutation_only_cached` at the demo run: the second
scan only flips the stored object's `Cached` flag. -/
theorem c9_mutation_only_cached_witness :
    hlookup 0 scanDemoState2.heap = some scanDemoResult ∨
    hlookup 0 scanDemoState2.heap = some { scanDemoResult with cached := true } :=
  c9_mutation_only_cached scanDemoUpstream 1 "0xAbC" "base" scanDemoState1 0 scanDemoResult
    (by decide) (by decide) 0 scanDemoState2 (by decide)
